import Mathlib

/-!
Shallow embedding of the `fuel-finder-gov-uk` TypeScript SDK
(`src/types.ts`, `src/client.ts`, `src/errors.ts`).

The SDK has two components:
* `FuelFinderAuthClient` — stateless OAuth calls (`generateAccessToken`,
  `regenerateAccessToken`) over a shared POST helper that normalizes
  HTTP/transport/timeout failures into `FuelFinderApiError`;
* `FuelFinderClient` — a managed client holding a single mutable token-cache
  slot, with an ensure-token step (`ensureAccessToken`) that reuses, refreshes
  or regenerates the token, and an authenticated GET helper for the four PFS
  data endpoints.

Times are JS `Date.now()` millisecond clock readings, modelled as `Int`.
Network effects are modelled by oracles: an `EnsureOracle` gives the outcome
of the (at most two) auth calls of one ensure cycle, and a `FetchOutcome`
gives the outcome of a single `fetch` call, so that each client function
becomes a pure function of its inputs and the oracle.
-/

namespace FuelFinder

/-- `AccessTokenData` from `src/types.ts`: payload of a successful token
generation; all fields required (`expires_in` in seconds). -/
structure AccessTokenData where
  access_token : String
  token_type : String
  expires_in : Int
  refresh_token : String
deriving Repr, DecidableEq

/-- `RefreshAccessTokenData` from `src/types.ts`: payload of a successful
refresh; `refresh_token` is optional. -/
structure RefreshAccessTokenData where
  access_token : String
  token_type : String
  expires_in : Int
  refresh_token : Option String
deriving Repr, DecidableEq

/-- `TokenCache` from `src/client.ts`: the single mutable cache slot of
`FuelFinderClient` (held as `Option TokenCache`, `none` = absent). -/
structure TokenCache where
  accessToken : String
  tokenType : String
  refreshToken : Option String
  expiresAt : Int
  expiresIn : Int
deriving Repr, DecidableEq

/-- `FuelFinderClient.updateCache`: stores the payload with
`expiresAt = Date.now() + data.expires_in * 1000 - 5000` (5-second buffer). -/
def updateCache (now : Int) (data : AccessTokenData) : TokenCache :=
  ⟨data.access_token, data.token_type, some data.refresh_token,
    now + data.expires_in * 1000 - 5000, data.expires_in⟩

/-- JS truthiness of `tokenCache?.refreshToken`: present and non-empty. -/
def truthyOpt : Option String → Option String
  | none => none
  | some s => if s = "" then none else some s

/-- Outcomes of the auth calls available to one ensure cycle: the result the
auth client would deliver for a refresh (`regenerateAccessToken`) and for a
generation (`generateAccessToken`). The error type `ε` is opaque here. -/
structure EnsureOracle (ε : Type) where
  refreshResult : Except ε RefreshAccessTokenData
  generateResult : Except ε AccessTokenData

/-- Outbound auth calls recorded by an ensure cycle. -/
inductive AuthCall where
  | refresh
  | generate
deriving Repr, DecidableEq

/-- Result of one `ensureAccessToken` cycle: final cache slot, the
resolution/rejection of the promise, and the auth calls issued in order. -/
structure EnsureOutcome (ε : Type) where
  cache : Option TokenCache
  result : Except ε Unit
  calls : List AuthCall

/-- Tail of `ensureAccessToken`: the unconditional `generateAccessToken`
step. On success the result is installed via `updateCache`; on failure the
error propagates and the cache slot is left as it was (`cache`). -/
def generateStep {ε : Type} (now : Int) (cache : Option TokenCache)
    (o : EnsureOracle ε) (prior : List AuthCall) : EnsureOutcome ε :=
  match o.generateResult with
  | Except.ok g => ⟨some (updateCache now g), Except.ok (), prior ++ [AuthCall.generate]⟩
  | Except.error e => ⟨cache, Except.error e, prior ++ [AuthCall.generate]⟩

/-- `FuelFinderClient.ensureAccessToken` from `src/client.ts`:
1. if a cache exists and `expiresAt > now`, return immediately;
2. else if a truthy refresh token is cached, attempt a refresh; on success
   install the refreshed payload but pass the OLD refresh token
   (`refresh_token: this.tokenCache.refreshToken`); on failure clear the
   cache (`this.tokenCache = undefined`) and fall through;
3. call `generateAccessToken` and install its result. -/
def ensureAccessToken {ε : Type} (now : Int) (cache : Option TokenCache)
    (o : EnsureOracle ε) : EnsureOutcome ε :=
  match cache with
  | none => generateStep now none o []
  | some tc =>
    if now < tc.expiresAt then ⟨some tc, Except.ok (), []⟩
    else
      match truthyOpt tc.refreshToken with
      | none => generateStep now (some tc) o []
      | some rt =>
        match o.refreshResult with
        | Except.ok r =>
          ⟨some (updateCache now ⟨r.access_token, r.token_type, r.expires_in, rt⟩),
            Except.ok (), [AuthCall.refresh]⟩
        | Except.error _ => generateStep now none o [AuthCall.refresh]

/-- `FuelFinderClient.getAccessToken`: awaits `ensureAccessToken`, then reads
`this.tokenCache!.accessToken`. The non-null-asserted read is modelled with
`Option.map`: an `ok none` result would mean the assertion read an absent
cache. -/
def getAccessToken {ε : Type} (now : Int) (cache : Option TokenCache)
    (o : EnsureOracle ε) : Except ε (Option String) :=
  let out := ensureAccessToken now cache o
  match out.result with
  | Except.ok _ => Except.ok (out.cache.map TokenCache.accessToken)
  | Except.error e => Except.error e

example :
    (ensureAccessToken 5 (some ⟨"tok", "Bearer", some "rt", 10, 3600⟩)
      (⟨Except.error (), Except.error ()⟩ : EnsureOracle Unit)).calls = [] := by
  decide

example :
    (ensureAccessToken 10 (some ⟨"tok", "Bearer", some "rt", 10, 3600⟩)
      (⟨Except.ok ⟨"n", "Bearer", 60, none⟩, Except.error ()⟩ : EnsureOracle Unit)).cache =
      some ⟨"n", "Bearer", some "rt", 10 + 60 * 1000 - 5000, 60⟩ := by
  decide

/-- A JS error value as seen by a `catch` clause: only its `name` property is
inspected by the SDK (`(error as Error).name === "AbortError"`). -/
structure JsError where
  name : String
deriving Repr, DecidableEq

/-- Body of an HTTP response, as consumed by `await response.text()` followed
by `text ? JSON.parse(text) : {}`: empty text, text parsing to a value of the
expected shape `β`, or text on which `JSON.parse` throws. -/
inductive FetchBody (β : Type) where
  | empty
  | json (v : β)
  | malformed (e : JsError)
deriving Repr, DecidableEq

/-- Outcome of one `fetchImpl(...)` call: a response with an HTTP status,
its `ok` flag (2xx) and a body, or a rejection (network failure, abort). -/
inductive FetchOutcome (β : Type) where
  | response (status : Int) (ok : Bool) (body : FetchBody β)
  | thrown (e : JsError)
deriving Repr, DecidableEq

/-- Value of `const parsed = text ? JSON.parse(text) : {}`: the empty object
`\x7b\x7d` for an empty body, or the parsed value. -/
inductive Parsed (β : Type) where
  | emptyObject
  | value (v : β)
deriving Repr, DecidableEq

/-- The `details` slot of a `FuelFinderApiError`: either the parsed response
body (non-2xx statuses and malformed-fields checks) or the underlying thrown
failure (status-0 transport errors). -/
inductive ErrDetails (β : Type) where
  | parsed (p : Parsed β)
  | underlying (e : JsError)
deriving Repr, DecidableEq

/-- `FuelFinderApiError` from `src/errors.ts`: message, HTTP status (0 for
transport failures, 408 for timeouts, 500 synthetic) and optional details. -/
structure FuelFinderApiError (β : Type) where
  message : String
  status : Int
  details : Option (ErrDetails β)
deriving Repr, DecidableEq

/-- Message of the non-2xx error:
template literal "Fuel Finder API returned status ...". -/
def statusMessage (status : Int) : String :=
  "Fuel Finder API returned status " ++ toString status ++ "."

/-- What the `try` block of `post` / `authenticatedGet` produces: a parsed
body, a thrown `FuelFinderApiError` (the non-2xx branch), or a thrown JS
error (fetch rejection, `text()` rejection or `JSON.parse` failure). Note
the body is read and parsed BEFORE the `response.ok` check. -/
inductive TryOutcome (β : Type) where
  | ok (p : Parsed β)
  | apiThrown (e : FuelFinderApiError β)
  | jsThrown (e : JsError)
deriving Repr, DecidableEq

/-- The shared `try` block body of `FuelFinderAuthClient.post` and
`FuelFinderClient.authenticatedGet`. -/
def requestTryBlock {β : Type} (outcome : FetchOutcome β) : TryOutcome β :=
  match outcome with
  | FetchOutcome.thrown e => TryOutcome.jsThrown e
  | FetchOutcome.response status ok body =>
    match body with
    | FetchBody.malformed e => TryOutcome.jsThrown e
    | FetchBody.empty =>
      if ok then TryOutcome.ok Parsed.emptyObject
      else TryOutcome.apiThrown
        ⟨statusMessage status, status, some (ErrDetails.parsed Parsed.emptyObject)⟩
    | FetchBody.json v =>
      if ok then TryOutcome.ok (Parsed.value v)
      else TryOutcome.apiThrown
        ⟨statusMessage status, status, some (ErrDetails.parsed (Parsed.value v))⟩

/-- The shared `catch` clause: a `FuelFinderApiError` is re-thrown unchanged;
an error named `AbortError` becomes status 408 with the call-site timeout
message; anything else becomes status 0 with the failure as details. -/
def catchClause {β : Type} (timeoutMessage : String) (t : TryOutcome β) :
    Except (FuelFinderApiError β) (Parsed β) :=
  match t with
  | TryOutcome.ok p => Except.ok p
  | TryOutcome.apiThrown e => Except.error e
  | TryOutcome.jsThrown e =>
    if e.name = "AbortError" then Except.error ⟨timeoutMessage, 408, none⟩
    else Except.error
      ⟨"Failed to call the Fuel Finder API.", 0, some (ErrDetails.underlying e)⟩

/-- One request/normalization round: `try` block then `catch` clause. -/
def sendRequest {β : Type} (timeoutMessage : String) (outcome : FetchOutcome β) :
    Except (FuelFinderApiError β) (Parsed β) :=
  catchClause timeoutMessage (requestTryBlock outcome)

/-- Timeout message of `FuelFinderAuthClient.post`: template literal
"Request timed out after ...ms." interpolating `this.timeoutMs` (JS renders
`undefined` when no timeout is configured, an unreachable case since no
abort controller exists then). -/
def postTimeoutMessage : Option Int → String
  | some t => "Request timed out after " ++ toString t ++ "ms."
  | none => "Request timed out after undefinedms."

/-- `FuelFinderAuthClient.post`, as a function of the fetch outcome. -/
def post {β : Type} (timeoutMs : Option Int) (outcome : FetchOutcome β) :
    Except (FuelFinderApiError β) (Parsed β) :=
  sendRequest (postTimeoutMessage timeoutMs) outcome

/-- Timeout message of `FuelFinderClient.authenticatedGet` (fixed string, a
deliberate asymmetry with `post`). -/
def getTimeoutMessage : String := "Request timed out."

/-- `GenerateAccessTokenResponse` from `src/types.ts`:
`{ success: boolean; data?: AccessTokenData; message?: string }`. -/
structure GenerateAccessTokenResponse where
  success : Bool
  data : Option AccessTokenData
  message : Option String
deriving Repr, DecidableEq

/-- `RegenerateAccessTokenResponse` from `src/types.ts`: a union of the
enveloped shape (has a `success` key) and a bare `RefreshAccessTokenData`
payload; the code discriminates with `"success" in response`, which the two
constructors mirror. -/
inductive RegenerateAccessTokenResponse where
  | envelope (success : Bool) (data : Option RefreshAccessTokenData) (message : Option String)
  | bare (payload : RefreshAccessTokenData)
deriving Repr, DecidableEq

/-- Field-check step of `FuelFinderAuthClient.generateAccessToken`, applied
to the value `post` resolved with (a 2xx body). An empty body ends as the
empty object, whose absent `success` is falsy, hence the same error. Throws
`if (!response.success || !response.data)`, status 500, details = the raw
parsed response. -/
def generateAccessTokenCheck (p : Parsed GenerateAccessTokenResponse) :
    Except (FuelFinderApiError GenerateAccessTokenResponse) AccessTokenData :=
  match p with
  | Parsed.emptyObject =>
    Except.error ⟨"Access token response was missing expected fields.", 500,
      some (ErrDetails.parsed Parsed.emptyObject)⟩
  | Parsed.value r =>
    match r.success, r.data with
    | true, some d => Except.ok d
    | true, none =>
      Except.error ⟨"Access token response was missing expected fields.", 500,
        some (ErrDetails.parsed (Parsed.value r))⟩
    | false, _ =>
      Except.error ⟨"Access token response was missing expected fields.", 500,
        some (ErrDetails.parsed (Parsed.value r))⟩

/-- Field-check step of `FuelFinderAuthClient.regenerateAccessToken`. For the
enveloped shape (`"success" in response`) it throws status 500 unless
`success` is true and `data` is present; for the bare shape it throws status
500 unless `access_token` is truthy (non-empty). An empty body ends as the
empty object, which lacks a `success` key, hence takes the bare branch and
fails its truthiness check. -/
def regenerateAccessTokenCheck (p : Parsed RegenerateAccessTokenResponse) :
    Except (FuelFinderApiError RegenerateAccessTokenResponse) RefreshAccessTokenData :=
  match p with
  | Parsed.emptyObject =>
    Except.error ⟨"Refresh response was missing expected fields.", 500,
      some (ErrDetails.parsed Parsed.emptyObject)⟩
  | Parsed.value r =>
    match r with
    | RegenerateAccessTokenResponse.envelope success data _ =>
      match success, data with
      | true, some d => Except.ok d
      | true, none =>
        Except.error ⟨"Refresh response was missing expected fields.", 500,
          some (ErrDetails.parsed (Parsed.value r))⟩
      | false, _ =>
        Except.error ⟨"Refresh response was missing expected fields.", 500,
          some (ErrDetails.parsed (Parsed.value r))⟩
    | RegenerateAccessTokenResponse.bare payload =>
      if payload.access_token = "" then
        Except.error ⟨"Refresh response was missing expected fields.", 500,
          some (ErrDetails.parsed (Parsed.value r))⟩
      else Except.ok payload

/-- `FuelFinderAuthClient.generateAccessToken`: POST then field check. -/
def generateAccessToken (timeoutMs : Option Int)
    (outcome : FetchOutcome GenerateAccessTokenResponse) :
    Except (FuelFinderApiError GenerateAccessTokenResponse) AccessTokenData :=
  match post timeoutMs outcome with
  | Except.error e => Except.error e
  | Except.ok p => generateAccessTokenCheck p

/-- `FuelFinderAuthClient.regenerateAccessToken`: POST then field check. -/
def regenerateAccessToken (timeoutMs : Option Int)
    (outcome : FetchOutcome RegenerateAccessTokenResponse) :
    Except (FuelFinderApiError RegenerateAccessTokenResponse) RefreshAccessTokenData :=
  match post timeoutMs outcome with
  | Except.error e => Except.error e
  | Except.ok p => regenerateAccessTokenCheck p

/-- The GET request `authenticatedGet` hands to `fetchImpl`: path, query
parameters (in `searchParams.set` insertion order) and the
`Authorization: tokenType accessToken` header value. -/
structure GetRequest where
  path : String
  query : List (String × String)
  authorization : String
deriving Repr, DecidableEq

/-- Every outbound HTTP call a data-fetch operation can issue: the two auth
POSTs of the ensure cycle, and the data GET itself. -/
inductive OutboundCall where
  | authRefresh
  | authGenerate
  | dataGet (req : GetRequest)
deriving Repr, DecidableEq

/-- Renaming of ensure-cycle calls into the outbound-call alphabet. -/
def authCallToOutbound : AuthCall → OutboundCall
  | AuthCall.refresh => OutboundCall.authRefresh
  | AuthCall.generate => OutboundCall.authGenerate

/-- Errors a data-fetch operation can reject with: an auth error propagated
from the ensure cycle, a normalized `FuelFinderApiError` from the GET round,
or `absentCacheRead` — the marker for the non-null-asserted
`this.tokenCache!` reads evaluating on an absent cache. -/
inductive DataError (ε β : Type) where
  | auth (e : ε)
  | api (e : FuelFinderApiError β)
  | absentCacheRead
deriving Repr, DecidableEq

/-- Result of one data-fetch operation: final cache slot, resolution or
rejection, and the outbound HTTP calls issued, in order. -/
structure DataResult (ε β : Type) where
  cache : Option TokenCache
  result : Except (DataError ε β) (Parsed β)
  calls : List OutboundCall

/-- `FuelFinderClient.authenticatedGet`: awaits `ensureAccessToken` (whose
rejection propagates before any GET is issued), builds the GET request with
the `Authorization` header from the non-null-asserted cache reads, performs
the fetch and normalizes the outcome with the fixed GET timeout message. -/
def authenticatedGet {ε β : Type} (now : Int) (cache : Option TokenCache)
    (o : EnsureOracle ε) (path : String) (query : List (String × String))
    (fo : FetchOutcome β) : DataResult ε β :=
  let ensured := ensureAccessToken now cache o
  match ensured.result with
  | Except.error e =>
    ⟨ensured.cache, Except.error (DataError.auth e), ensured.calls.map authCallToOutbound⟩
  | Except.ok _ =>
    match ensured.cache with
    | none =>
      ⟨none, Except.error DataError.absentCacheRead, ensured.calls.map authCallToOutbound⟩
    | some tc =>
      let req : GetRequest := ⟨path, query, tc.tokenType ++ " " ++ tc.accessToken⟩
      match sendRequest getTimeoutMessage fo with
      | Except.ok p =>
        ⟨some tc, Except.ok p,
          ensured.calls.map authCallToOutbound ++ [OutboundCall.dataGet req]⟩
      | Except.error e =>
        ⟨some tc, Except.error (DataError.api e),
          ensured.calls.map authCallToOutbound ++ [OutboundCall.dataGet req]⟩

/-- `FuelFinderClient.getAllPFSFuelPrices`. -/
def getAllPFSFuelPrices {ε β : Type} (now : Int) (cache : Option TokenCache)
    (o : EnsureOracle ε) (fo : FetchOutcome β) : DataResult ε β :=
  authenticatedGet now cache o "/api/v1/pfs/fuel-prices" [] fo

/-- `FuelFinderClient.getIncrementalPFSFuelPrices`: the `dateTime` string
argument is forwarded unchanged as the `date_time` query parameter. -/
def getIncrementalPFSFuelPrices {ε β : Type} (now : Int) (cache : Option TokenCache)
    (o : EnsureOracle ε) (dateTime : String) (fo : FetchOutcome β) : DataResult ε β :=
  authenticatedGet now cache o "/api/v1/pfs/fuel-prices" [("date_time", dateTime)] fo

/-- `FuelFinderClient.getPFSInfo` (trailing-slash path). -/
def getPFSInfo {ε β : Type} (now : Int) (cache : Option TokenCache)
    (o : EnsureOracle ε) (fo : FetchOutcome β) : DataResult ε β :=
  authenticatedGet now cache o "/api/v1/pfs/" [] fo

/-- `FuelFinderClient.getIncrementalPFSInfo` (no trailing slash): the
`dateTime` string argument is forwarded unchanged as `date_time`. -/
def getIncrementalPFSInfo {ε β : Type} (now : Int) (cache : Option TokenCache)
    (o : EnsureOracle ε) (dateTime : String) (fo : FetchOutcome β) : DataResult ε β :=
  authenticatedGet now cache o "/api/v1/pfs" [("date_time", dateTime)] fo

/-- Modelled from the spec: the exact `YYYY-MM-DD HH:MM:SS` timestamp
pattern that, per the date-normalization rule of the specification and the
repository's own tests (`tests/pfs.integration.test.ts`), incremental
`sinceTime` strings must match before any network call. No such check exists
anywhere in the `src` client code — the incremental methods forward the
string verbatim — so the required pattern is stated here from the spec's
words for comparison with the code's behaviour. -/
def spec_matchesTimestampPattern (s : String) : Bool :=
  match s.toList with
  | [y1, y2, y3, y4, s1, mo1, mo2, s2, d1, d2, s3, h1, h2, s4, mi1, mi2, s5, se1, se2] =>
    y1.isDigit && y2.isDigit && y3.isDigit && y4.isDigit && s1 == '-'
      && mo1.isDigit && mo2.isDigit && s2 == '-' && d1.isDigit && d2.isDigit
      && s3 == ' ' && h1.isDigit && h2.isDigit && s4 == ':'
      && mi1.isDigit && mi2.isDigit && s5 == ':' && se1.isDigit && se2.isDigit
  | _ => false

example : spec_matchesTimestampPattern "2025-09-05 00:00:00" = true := by decide

example : spec_matchesTimestampPattern "2025-09-05" = false := by decide

/-- C1: the claim (and the repository's own test suite) requires
`getIncrementalPFSFuelPrices` / `getIncrementalPFSInfo` to reject a
`sinceTime` string that does not match `YYYY-MM-DD HH:MM:SS` — such as the
date-only `"2025-09-05"` — with "Invalid timestamp format for
effective-start-timestamp." and to issue no outbound HTTP call. The client
code in `src` contains no such validation: evaluated at the failing input
`"2025-09-05"` (with a valid cached token, so the auth phase is silent),
both operations issue exactly one outbound data GET carrying
`date_time=2025-09-05` verbatim, even though the string fails the required
pattern (which `"2025-09-05 00:00:00"` satisfies). -/
theorem c1_sinceTime_forwarded_unvalidated :
    spec_matchesTimestampPattern "2025-09-05 00:00:00" = true ∧
    spec_matchesTimestampPattern "2025-09-05" = false ∧
    (getIncrementalPFSFuelPrices 5 (some ⟨"tok", "Bearer", some "rt", 10, 3600⟩)
        (⟨Except.error (), Except.error ()⟩ : EnsureOracle Unit) "2025-09-05"
        (FetchOutcome.response 200 true FetchBody.empty : FetchOutcome Unit)).calls =
      [OutboundCall.dataGet
        ⟨"/api/v1/pfs/fuel-prices", [("date_time", "2025-09-05")], "Bearer tok"⟩] ∧
    (getIncrementalPFSInfo 5 (some ⟨"tok", "Bearer", some "rt", 10, 3600⟩)
        (⟨Except.error (), Except.error ()⟩ : EnsureOracle Unit) "2025-09-05"
        (FetchOutcome.response 200 true FetchBody.empty : FetchOutcome Unit)).calls =
      [OutboundCall.dataGet
        ⟨"/api/v1/pfs", [("date_time", "2025-09-05")], "Bearer tok"⟩] := by
  exact ⟨by decide, by decide, by decide, by decide⟩

/-- C2 counterexample: with an expired cache holding refresh token
`"old-rt"`, a refresh response that DOES supply a new refresh token
(`"new-rt"`) is ignored — the code passes `this.tokenCache.refreshToken` to
`updateCache` unconditionally, so the new cache still holds `"old-rt"`,
contradicting the claim that the refresh token comes from the refresh
response when it supplies one. -/
theorem c2_counterexample_new_refresh_token_ignored :
    ((ensureAccessToken 10 (some ⟨"old-at", "Bearer", some "old-rt", 5, 60⟩)
        (⟨Except.ok ⟨"new-at", "Bearer", 3600, some "new-rt"⟩, Except.error ()⟩ :
          EnsureOracle Unit)).cache.map TokenCache.refreshToken = some (some "old-rt")) ∧
    ((ensureAccessToken 10 (some ⟨"old-at", "Bearer", some "old-rt", 5, 60⟩)
        (⟨Except.ok ⟨"new-at", "Bearer", 3600, some "new-rt"⟩, Except.error ()⟩ :
          EnsureOracle Unit)).cache.map TokenCache.refreshToken ≠ some (some "new-rt")) := by
  exact ⟨by decide, by decide⟩

/-- C2 (amended): on every successful refresh during the token-ensure cycle
the cache is replaced with the access token, token type and expiry computed
from the refresh response, but the refresh-token slot always keeps the
previous cached refresh token — the refresh response's refresh token is
ignored even when it supplies one. -/
theorem c2_refresh_always_retains_previous_refresh_token {ε : Type}
    (now : Int) (tc : TokenCache) (o : EnsureOracle ε) (rt : String)
    (r : RefreshAccessTokenData)
    (hexp : tc.expiresAt ≤ now) (hrt : tc.refreshToken = some rt) (hne : rt ≠ "")
    (hr : o.refreshResult = Except.ok r) :
    ensureAccessToken now (some tc) o =
      ⟨some ⟨r.access_token, r.token_type, some rt,
          now + r.expires_in * 1000 - 5000, r.expires_in⟩,
        Except.ok (), [AuthCall.refresh]⟩ := by
  simp only [ensureAccessToken, truthyOpt, hrt, if_neg hne, hr,
    if_neg (not_lt.mpr hexp), updateCache]

/-- C2 witness: the amended theorem applied at a concrete expired cache and
a concrete successful refresh response. -/
theorem c2_refresh_always_retains_previous_refresh_token_witness :
    ensureAccessToken 10 (some ⟨"old-at", "Bearer", some "old-rt", 5, 60⟩)
        (⟨Except.ok ⟨"new-at", "Bearer", 3600, some "new-rt"⟩, Except.error ()⟩ :
          EnsureOracle Unit) =
      ⟨some ⟨"new-at", "Bearer", some "old-rt", 10 + 3600 * 1000 - 5000, 3600⟩,
        Except.ok (), [AuthCall.refresh]⟩ :=
  c2_refresh_always_retains_previous_refresh_token 10
    ⟨"old-at", "Bearer", some "old-rt", 5, 60⟩
    (⟨Except.ok ⟨"new-at", "Bearer", 3600, some "new-rt"⟩, Except.error ()⟩ :
      EnsureOracle Unit)
    "old-rt" ⟨"new-at", "Bearer", 3600, some "new-rt"⟩
    (by decide) rfl (by decide) rfl

/-- C4: whenever a cached token exists with `expiresAt` strictly greater
than the current time, the ensure step returns immediately with the cache
unchanged and zero outbound auth calls, and `getAccessToken` resolves with
the cached access token. -/
theorem c4_valid_cache_reused {ε : Type} (now : Int) (tc : TokenCache)
    (o : EnsureOracle ε) (h : now < tc.expiresAt) :
    ensureAccessToken now (some tc) o = ⟨some tc, Except.ok (), []⟩ ∧
    getAccessToken now (some tc) o = Except.ok (some tc.accessToken) := by
  have base : ensureAccessToken now (some tc) o = ⟨some tc, Except.ok (), []⟩ := by
    simp only [ensureAccessToken, if_pos h]
  refine ⟨base, ?_⟩
  simp only [getAccessToken, base, Option.map_some']

/-- C4 witness: the theorem applied at a concrete still-valid cache. -/
theorem c4_valid_cache_reused_witness :
    ensureAccessToken 5 (some ⟨"tok", "Bearer", some "rt", 10, 3600⟩)
        (⟨Except.error (), Except.error ()⟩ : EnsureOracle Unit) =
      ⟨some ⟨"tok", "Bearer", some "rt", 10, 3600⟩, Except.ok (), []⟩ ∧
    getAccessToken 5 (some ⟨"tok", "Bearer", some "rt", 10, 3600⟩)
        (⟨Except.error (), Except.error ()⟩ : EnsureOracle Unit) =
      Except.ok (some "tok") :=
  c4_valid_cache_reused 5 ⟨"tok", "Bearer", some "rt", 10, 3600⟩
    (⟨Except.error (), Except.error ()⟩ : EnsureOracle Unit) (by decide)

/-- C3: starting from a cached token whose `expiresAt` is not in the future
and a (truthy) refresh token, exactly one refresh attempt is made; if the
refresh succeeds no further auth call follows; if it fails, exactly one
generate attempt follows and the refresh error is not propagated — the
result and final cache are determined by the generate outcome (generate
success installs the generate result, generate failure leaves the cache
discarded, i.e. `none`); at most two outbound auth calls occur. -/
theorem c3_expired_refresh_then_generate {ε : Type} (now : Int) (tc : TokenCache)
    (o : EnsureOracle ε) (rt : String)
    (hexp : tc.expiresAt ≤ now) (hrt : tc.refreshToken = some rt) (hne : rt ≠ "") :
    (∀ r, o.refreshResult = Except.ok r →
      (ensureAccessToken now (some tc) o).calls = [AuthCall.refresh]) ∧
    (∀ e, o.refreshResult = Except.error e →
      (ensureAccessToken now (some tc) o).calls = [AuthCall.refresh, AuthCall.generate] ∧
      (∀ g, o.generateResult = Except.ok g →
        (ensureAccessToken now (some tc) o).result = Except.ok () ∧
        (ensureAccessToken now (some tc) o).cache = some (updateCache now g)) ∧
      (∀ e2, o.generateResult = Except.error e2 →
        (ensureAccessToken now (some tc) o).result = Except.error e2 ∧
        (ensureAccessToken now (some tc) o).cache = none)) ∧
    (ensureAccessToken now (some tc) o).calls.length ≤ 2 := by
  have base : ensureAccessToken now (some tc) o =
      (match o.refreshResult with
        | Except.ok r =>
          ⟨some (updateCache now ⟨r.access_token, r.token_type, r.expires_in, rt⟩),
            Except.ok (), [AuthCall.refresh]⟩
        | Except.error _ => generateStep now none o [AuthCall.refresh]) := by
    simp only [ensureAccessToken, truthyOpt, hrt, if_neg hne, if_neg (not_lt.mpr hexp)]
  refine ⟨?_, ?_, ?_⟩
  · intro r hr
    rw [base, hr]
  · intro e he
    rw [base, he]
    refine ⟨?_, ?_, ?_⟩
    · cases hg : o.generateResult <;> simp [generateStep, hg]
    · intro g hg
      simp [generateStep, hg]
    · intro e2 hg
      simp [generateStep, hg]
  · rw [base]
    cases hr : o.refreshResult with
    | ok r => simp
    | error e => cases hg : o.generateResult <;> simp [generateStep, hg]

/-- C3 witness: the theorem applied at a concrete expired cache where both
the refresh and the generate attempt fail. -/
theorem c3_expired_refresh_then_generate_witness :
    (ensureAccessToken 10 (some ⟨"a", "Bearer", some "rt", 5, 60⟩)
        (⟨Except.error (), Except.error ()⟩ : EnsureOracle Unit)).calls =
      [AuthCall.refresh, AuthCall.generate] ∧
    (ensureAccessToken 10 (some ⟨"a", "Bearer", some "rt", 5, 60⟩)
        (⟨Except.error (), Except.error ()⟩ : EnsureOracle Unit)).cache = none := by
  have h := c3_expired_refresh_then_generate 10 ⟨"a", "Bearer", some "rt", 5, 60⟩
    (⟨Except.error (), Except.error ()⟩ : EnsureOracle Unit) "rt"
    (by decide) rfl (by decide)
  exact ⟨(h.2.1 () rfl).1, ((h.2.1 () rfl).2.2 () rfl).2⟩

/-- C10: whenever the ensure step resolves without throwing, the token cache
is populated, so the non-null-asserted cache reads that run only after a
successful ensure never see an absent cache: `getAccessToken` resolves with
an actual token string, and `authenticatedGet` can never reject with the
absent-cache-read marker. -/
theorem c10_successful_ensure_populates_cache {ε : Type} (now : Int)
    (cache : Option TokenCache) (o : EnsureOracle ε) :
    ((ensureAccessToken now cache o).result = Except.ok () →
      (ensureAccessToken now cache o).cache.isSome = true ∧
      ∃ t, getAccessToken now cache o = Except.ok (some t)) ∧
    (∀ (β : Type) (path : String) (query : List (String × String)) (fo : FetchOutcome β),
      (authenticatedGet now cache o path query fo).result ≠
        Except.error DataError.absentCacheRead) := by
  have key : (ensureAccessToken now cache o).result = Except.ok () →
      (ensureAccessToken now cache o).cache.isSome = true := by
    cases cache with
    | none =>
      simp only [ensureAccessToken, generateStep]
      cases hg : o.generateResult <;> simp
    | some tc =>
      by_cases h : now < tc.expiresAt
      · simp [ensureAccessToken, if_pos h]
      · simp only [ensureAccessToken, if_neg h]
        cases ht : truthyOpt tc.refreshToken with
        | none =>
          simp only [generateStep]
          cases hg : o.generateResult <;> simp
        | some rt =>
          cases hr : o.refreshResult with
          | ok r => simp
          | error e =>
            simp only [generateStep]
            cases hg : o.generateResult <;> simp
  constructor
  · intro hok
    obtain ⟨tc, htc⟩ := Option.isSome_iff_exists.mp (key hok)
    refine ⟨key hok, tc.accessToken, ?_⟩
    simp only [getAccessToken, hok, htc, Option.map_some']
  · intro β path query fo
    by_cases hres : (ensureAccessToken now cache o).result = Except.ok ()
    · obtain ⟨tc, htc⟩ := Option.isSome_iff_exists.mp (key hres)
      simp only [authenticatedGet, hres, htc]
      cases hsend : sendRequest getTimeoutMessage fo <;> simp
    · obtain ⟨e, he⟩ : ∃ e, (ensureAccessToken now cache o).result = Except.error e := by
        cases h : (ensureAccessToken now cache o).result with
        | ok u => cases u; exact absurd h hres
        | error e => exact ⟨e, rfl⟩
      simp [authenticatedGet, he]

/-- C10 witness: the theorem applied at an absent cache with a successful
generate outcome. -/
theorem c10_successful_ensure_populates_cache_witness :
    (ensureAccessToken 0 none
        (⟨Except.error (), Except.ok ⟨"at", "Bearer", 60, "rt"⟩⟩ :
          EnsureOracle Unit)).cache.isSome = true ∧
    ∃ t, getAccessToken 0 none
        (⟨Except.error (), Except.ok ⟨"at", "Bearer", 60, "rt"⟩⟩ :
          EnsureOracle Unit) = Except.ok (some t) :=
  (c10_successful_ensure_populates_cache 0 none
    (⟨Except.error (), Except.ok ⟨"at", "Bearer", 60, "rt"⟩⟩ :
      EnsureOracle Unit)).1 rfl

/-- C9: every token payload installed into the cache gets
`expiresAt = now + expires_in * 1000 - 5000` — the install-time clock value
plus the lifetime in milliseconds minus the 5-second safety buffer, in exact
integer arithmetic. -/
theorem c9_expiresAt_buffer (now : Int) (data : AccessTokenData) :
    (updateCache now data).expiresAt = now + data.expires_in * 1000 - 5000 := rfl

/-- Invariant claimed by the spec for the token-cache slot: when present,
`accessToken` and `tokenType` are non-empty. -/
def cacheWellFormed : Option TokenCache → Prop
  | none => True
  | some tc => tc.accessToken ≠ "" ∧ tc.tokenType ≠ ""

/-- C5 counterexample: the field checks of a successful generate only
require `success` to be true and `data` to be present — a 2xx response whose
`data` carries EMPTY `access_token` and `token_type` passes the check, and
the ensure cycle installs it, leaving a present cache whose `accessToken`
and `tokenType` are both empty, violating the claimed invariant. -/
theorem c5_counterexample_empty_token_installed :
    generateAccessTokenCheck (Parsed.value ⟨true, some ⟨"", "", 3600, "rt"⟩, none⟩) =
      Except.ok ⟨"", "", 3600, "rt"⟩ ∧
    (ensureAccessToken 0 none
        (⟨Except.error (), Except.ok ⟨"", "", 3600, "rt"⟩⟩ : EnsureOracle Unit)).cache =
      some ⟨"", "", some "rt", 3595000, 3600⟩ := by
  exact ⟨rfl, by decide⟩

/-- C5 (amended): the non-emptiness invariant is conditional — the cache
fields are copied verbatim from the installed payload, so the ensure cycle
preserves the invariant provided the initial cache satisfies it and every
successful generate or refresh outcome carries non-empty `access_token` and
`token_type`; the code itself does not enforce non-emptiness of these
fields (only the bare refresh shape checks `access_token`). -/
theorem c5_conditional_nonempty_invariant {ε : Type} (now : Int)
    (cache : Option TokenCache) (o : EnsureOracle ε)
    (hc : cacheWellFormed cache)
    (hg : ∀ g, o.generateResult = Except.ok g → g.access_token ≠ "" ∧ g.token_type ≠ "")
    (hr : ∀ r, o.refreshResult = Except.ok r → r.access_token ≠ "" ∧ r.token_type ≠ "") :
    cacheWellFormed (ensureAccessToken now cache o).cache := by
  cases cache with
  | none =>
    simp only [ensureAccessToken, generateStep]
    cases hgr : o.generateResult with
    | ok g => simpa [cacheWellFormed, updateCache] using hg g hgr
    | error e => simp [cacheWellFormed]
  | some tc =>
    by_cases h : now < tc.expiresAt
    · simpa [ensureAccessToken, if_pos h] using hc
    · simp only [ensureAccessToken, if_neg h]
      cases ht : truthyOpt tc.refreshToken with
      | none =>
        simp only [generateStep]
        cases hgr : o.generateResult with
        | ok g => simpa [cacheWellFormed, updateCache] using hg g hgr
        | error e => simpa [cacheWellFormed] using hc
      | some rt =>
        cases hrr : o.refreshResult with
        | ok r => simpa [cacheWellFormed, updateCache] using hr r hrr
        | error e =>
          simp only [generateStep]
          cases hgr : o.generateResult with
          | ok g => simpa [cacheWellFormed, updateCache] using hg g hgr
          | error e2 => simp [cacheWellFormed]

/-- C5 witness: the amended theorem applied at an absent cache and a
generate outcome with non-empty token fields. -/
theorem c5_conditional_nonempty_invariant_witness :
    cacheWellFormed (ensureAccessToken 0 none
      (⟨Except.error (), Except.ok ⟨"at", "Bearer", 60, "rt"⟩⟩ :
        EnsureOracle Unit)).cache :=
  c5_conditional_nonempty_invariant 0 none
    (⟨Except.error (), Except.ok ⟨"at", "Bearer", 60, "rt"⟩⟩ : EnsureOracle Unit)
    trivial
    (fun g hgr => by cases hgr; exact ⟨by decide, by decide⟩)
    (fun r hrr => by cases hrr)

/-- C6: for 2xx auth responses, `generateAccessToken` fails with the
synthetic status-500 error carrying the raw parsed response as details if
and only if `success` is false or `data` is absent, and otherwise returns
the `data` payload; `regenerateAccessToken` discriminates the two shapes by
the presence of a `success` key (the two constructors of
`RegenerateAccessTokenResponse`), fails with a synthetic-500 error on the
enveloped shape if and only if it has `success` false or lacks `data`, and
on the bare shape if and only if `access_token` is not truthy (empty),
returning the normalized `RefreshAccessTokenData` payload otherwise. -/
theorem c6_auth_response_field_checks :
    (∀ r : GenerateAccessTokenResponse,
      (∃ e, generateAccessTokenCheck (Parsed.value r) = Except.error e ∧
          e.message = "Access token response was missing expected fields." ∧
          e.status = 500 ∧ e.details = some (ErrDetails.parsed (Parsed.value r))) ↔
        (r.success = false ∨ r.data = none)) ∧
    (∀ (r : GenerateAccessTokenResponse) (d : AccessTokenData),
      generateAccessTokenCheck (Parsed.value r) = Except.ok d ↔
        (r.success = true ∧ r.data = some d)) ∧
    (∀ (s : Bool) (dOpt : Option RefreshAccessTokenData) (m : Option String),
      (∃ e, regenerateAccessTokenCheck
            (Parsed.value (RegenerateAccessTokenResponse.envelope s dOpt m)) =
          Except.error e ∧ e.status = 500 ∧
          e.details = some (ErrDetails.parsed
            (Parsed.value (RegenerateAccessTokenResponse.envelope s dOpt m)))) ↔
        (s = false ∨ dOpt = none)) ∧
    (∀ (s : Bool) (dOpt : Option RefreshAccessTokenData) (m : Option String)
        (d : RefreshAccessTokenData),
      regenerateAccessTokenCheck
          (Parsed.value (RegenerateAccessTokenResponse.envelope s dOpt m)) =
        Except.ok d ↔ (s = true ∧ dOpt = some d)) ∧
    (∀ p : RefreshAccessTokenData,
      (∃ e, regenerateAccessTokenCheck
            (Parsed.value (RegenerateAccessTokenResponse.bare p)) =
          Except.error e ∧ e.status = 500) ↔ p.access_token = "") ∧
    (∀ p : RefreshAccessTokenData,
      regenerateAccessTokenCheck (Parsed.value (RegenerateAccessTokenResponse.bare p)) =
        Except.ok p ↔ p.access_token ≠ "") := by
  refine ⟨?_, ?_, ?_, ?_, ?_, ?_⟩
  · rintro ⟨s, dOpt, m⟩
    cases s <;> cases dOpt <;> simp [generateAccessTokenCheck]
  · rintro ⟨s, dOpt, m⟩ d
    cases s <;> cases dOpt <;> simp [generateAccessTokenCheck]
  · intro s dOpt m
    cases s <;> cases dOpt <;> simp [regenerateAccessTokenCheck]
  · intro s dOpt m d
    cases s <;> cases dOpt <;> simp [regenerateAccessTokenCheck]
  · intro p
    by_cases hp : p.access_token = "" <;> simp [regenerateAccessTokenCheck, hp]
  · intro p
    by_cases hp : p.access_token = "" <;> simp [regenerateAccessTokenCheck, hp]

/-- C7: for every request of the POST helper or the authenticated GET helper
(both normalize through the same try/catch): a non-2xx HTTP response whose
body is empty or parses fails with the real status code and the parsed body
as details (the empty body as the empty object); a rejected fetch or a
JSON-parse failure (the latter regardless of the HTTP status, since the body
is parsed before the `ok` check) fails with status 0 and the underlying
failure as details, provided it is not an abort; and an error already in the
normalized `FuelFinderApiError` shape is re-thrown unchanged. -/
theorem c7_error_normalization :
    (∀ (β : Type) (msg : String) (status : Int) (v : β),
      sendRequest msg (FetchOutcome.response status false (FetchBody.json v)) =
        Except.error ⟨statusMessage status, status,
          some (ErrDetails.parsed (Parsed.value v))⟩) ∧
    (∀ (β : Type) (msg : String) (status : Int),
      sendRequest msg (FetchOutcome.response status false FetchBody.empty : FetchOutcome β) =
        Except.error ⟨statusMessage status, status,
          some (ErrDetails.parsed Parsed.emptyObject)⟩) ∧
    (∀ (β : Type) (msg : String) (e : JsError), e.name ≠ "AbortError" →
      sendRequest msg (FetchOutcome.thrown e : FetchOutcome β) =
        Except.error ⟨"Failed to call the Fuel Finder API.", 0,
          some (ErrDetails.underlying e)⟩) ∧
    (∀ (β : Type) (msg : String) (status : Int) (ok : Bool) (e : JsError),
      e.name ≠ "AbortError" →
      sendRequest msg
          (FetchOutcome.response status ok (FetchBody.malformed e) : FetchOutcome β) =
        Except.error ⟨"Failed to call the Fuel Finder API.", 0,
          some (ErrDetails.underlying e)⟩) ∧
    (∀ (β : Type) (msg : String) (e : FuelFinderApiError β),
      catchClause msg (TryOutcome.apiThrown e) = Except.error e) := by
  refine ⟨?_, ?_, ?_, ?_, ?_⟩
  · intro β msg status v
    simp [sendRequest, requestTryBlock, catchClause]
  · intro β msg status
    simp [sendRequest, requestTryBlock, catchClause]
  · intro β msg e he
    simp [sendRequest, requestTryBlock, catchClause, he]
  · intro β msg status ok e he
    simp [sendRequest, requestTryBlock, catchClause, he]
  · intro β msg e
    simp [catchClause]

/-- C7 witness: the theorem's transport-failure clause applied at a concrete
non-abort failure, and its non-2xx clause at a concrete 404. -/
theorem c7_error_normalization_witness :
    sendRequest "m" (FetchOutcome.thrown ⟨"TypeError"⟩ : FetchOutcome Unit) =
      Except.error ⟨"Failed to call the Fuel Finder API.", 0,
        some (ErrDetails.underlying ⟨"TypeError"⟩)⟩ ∧
    sendRequest "m" (FetchOutcome.response 404 false FetchBody.empty : FetchOutcome Unit) =
      Except.error ⟨"Fuel Finder API returned status 404.", 404,
        some (ErrDetails.parsed Parsed.emptyObject)⟩ :=
  ⟨c7_error_normalization.2.2.1 Unit "m" ⟨"TypeError"⟩ (by decide),
    c7_error_normalization.2.1 Unit "m" 404⟩

/-- C8: a request cancelled by the configured timeout fails with status 408,
with the call-site-specific message: the auth POST helper interpolates the
configured milliseconds ("Request timed out after <timeoutMs>ms."), while
the authenticated data GET uses the fixed "Request timed out." with no
duration suffix. -/
theorem c8_timeout_messages :
    (∀ (β : Type) (t : Int),
      post (some t) (FetchOutcome.thrown ⟨"AbortError"⟩ : FetchOutcome β) =
        Except.error ⟨"Request timed out after " ++ toString t ++ "ms.", 408, none⟩) ∧
    (∀ (ε β : Type) (now : Int) (tc : TokenCache) (o : EnsureOracle ε)
        (path : String) (query : List (String × String)),
      now < tc.expiresAt →
        (authenticatedGet now (some tc) o path query
            (FetchOutcome.thrown ⟨"AbortError"⟩ : FetchOutcome β)).result =
          Except.error (DataError.api ⟨"Request timed out.", 408, none⟩)) := by
  constructor
  · intro β t
    rfl
  · intro ε β now tc o path query h
    have base : ensureAccessToken now (some tc) o = ⟨some tc, Except.ok (), []⟩ := by
      simp only [ensureAccessToken, if_pos h]
    simp [authenticatedGet, base, sendRequest, requestTryBlock, catchClause, getTimeoutMessage]

/-- C8 witness: both clauses applied at concrete timeouts and a concrete
valid cached token. -/
theorem c8_timeout_messages_witness :
    post (some 5000) (FetchOutcome.thrown ⟨"AbortError"⟩ : FetchOutcome Unit) =
      Except.error ⟨"Request timed out after 5000ms.", 408, none⟩ ∧
    (authenticatedGet 5 (some ⟨"tok", "Bearer", some "rt", 10, 3600⟩)
        (⟨Except.error (), Except.error ()⟩ : EnsureOracle Unit) "/api/v1/pfs/" []
        (FetchOutcome.thrown ⟨"AbortError"⟩ : FetchOutcome Unit)).result =
      Except.error (DataError.api ⟨"Request timed out.", 408, none⟩) :=
  ⟨c8_timeout_messages.1 Unit 5000,
    c8_timeout_messages.2 Unit Unit 5 ⟨"tok", "Bearer", some "rt", 10, 3600⟩
      (⟨Except.error (), Except.error ()⟩ : EnsureOracle Unit) "/api/v1/pfs/" []
      (by decide)⟩

end FuelFinder
